import Mathlib

/-!
Verification development for the pdfforgepro licensing server.

Shallow embedding of `src/license.js` (token codec), the in-memory
`LicenseStore` (`src/unnamed/part_001`), the Stripe verification adapter
(`src/unnamed/part_000`) and the HTTP handlers / webhook handlers of
`src/server.js`.

Modelling conventions:
* Timestamps are integer Unix seconds (`Int`).  JavaScript `Date`
  subtraction in milliseconds followed by `Math.floor(.../1000)` is exact
  on whole seconds, so `expiresIn` computations are carried out in seconds.
* JavaScript objects with possibly-absent / null fields are records of
  `Option` fields; JS string truthiness (`""`, `null`, `undefined` are
  falsy) is modelled explicitly.
* A value of type `Jwt` stands for a token string correctly signed with
  the process secret; an arbitrary text input that is not such a token
  (for instance a human-readable `PFW-...` key) is a separate constructor
  of `KeyOrToken`, on which `jwt.verify` fails.
* JS `Map` is an association list with `Map.get` / `Map.set` semantics
  (update in place keeps insertion order, new keys are appended).
-/

namespace PDFForge

/-- Failure modes of `jwt.verify` plus the explicit checks in
`src/license.js`: malformed or bad-signature input, codec-level `exp` in the
past (`TokenExpiredError`), wrong `type` tag, and the explicit
`payload.expiresAt` comparison. -/
inductive TokErr where
  | badToken
  | codecExpired
  | wrongType
  | payloadExpired
deriving DecidableEq, Repr

/-- The `{ startedAt, durationDays }` object carried by trial tokens. -/
structure TrialPayload where
  startedAt : Option Int
  durationDays : Option Int
deriving DecidableEq, Repr

/-- The license payload object
`{ name, email, plan, purchasedAt, expiresAt }`; every field may be
absent/null in a JS object, `expiresAt = none` models `null`. -/
structure LicensePayload where
  name : Option String
  email : Option String
  plan : Option String
  purchasedAt : Option Int
  expiresAt : Option Int
deriving DecidableEq, Repr

/-- A JWT signed with the process secret: the claims object produced by
`jwt.sign({...payload, type, iat}, SECRET, options)`.  `exp` is the
codec-level expiry registered by the `expiresIn` option. -/
structure Jwt where
  typ : String
  startedAt : Option Int := none
  durationDays : Option Int := none
  name : Option String := none
  email : Option String := none
  plan : Option String := none
  purchasedAt : Option Int := none
  expiresAt : Option Int := none
  iat : Int
  exp : Option Int := none
deriving DecidableEq, Repr

/-- `jwt.verify(token, SECRET)` on a correctly signed token: with zero
clock tolerance it throws `TokenExpiredError` when
`clockTimestamp >= payload.exp`. -/
def jwtVerify (tok : Jwt) (now : Int) : Except TokErr Jwt :=
  match tok.exp with
  | some e => if e ≤ now then .error .codecExpired else .ok tok
  | none => .ok tok

/-- `signTrialToken` (src/license.js:6-14): spreads the payload, adds
`type: 'trial'` and `iat = now`, and signs with `expiresIn: '7d'`, so
`exp = iat + 604800`. -/
def signTrialToken (payload : TrialPayload) (now : Int) : Jwt :=
  { typ := "trial"
    startedAt := payload.startedAt
    durationDays := payload.durationDays
    iat := now
    exp := some (now + 604800) }

/-- `verifyTrialToken` (src/license.js:16-27): `jwt.verify`, then the
`type` tag check, then returns `{ startedAt, durationDays }`. -/
def verifyTrialToken (tok : Jwt) (now : Int) : Except TokErr TrialPayload :=
  match jwtVerify tok now with
  | .error e => .error e
  | .ok decoded =>
    if decoded.typ ≠ "trial" then .error .wrongType
    else .ok { startedAt := decoded.startedAt, durationDays := decoded.durationDays }

/-- `signLicenseToken` (src/license.js:30-39): spreads the payload, adds
`type: 'license'` and `iat = now`; when `payload.expiresAt` is set (truthy)
the option `expiresIn = Math.floor((new Date(expiresAt) - new Date())/1000)`
is passed, so `exp = iat + (expiresAt - now)`; otherwise no codec expiry. -/
def signLicenseToken (payload : LicensePayload) (now : Int) : Jwt :=
  { typ := "license"
    name := payload.name
    email := payload.email
    plan := payload.plan
    purchasedAt := payload.purchasedAt
    expiresAt := payload.expiresAt
    iat := now
    exp := match payload.expiresAt with
      | some e => some (now + (e - now))
      | none => none }

/-- `verifyLicenseToken` (src/license.js:41-63): `jwt.verify`, the `type`
tag check, then the explicit payload check
`if (decoded.expiresAt) { if (new Date(decoded.expiresAt) < new Date()) throw }`,
and finally the projection to the five license fields. -/
def verifyLicenseToken (tok : Jwt) (now : Int) : Except TokErr LicensePayload :=
  match jwtVerify tok now with
  | .error e => .error e
  | .ok decoded =>
    if decoded.typ ≠ "license" then .error .wrongType
    else
      match decoded.expiresAt with
      | some e =>
        if e < now then .error .payloadExpired
        else .ok { name := decoded.name, email := decoded.email, plan := decoded.plan,
                   purchasedAt := decoded.purchasedAt, expiresAt := decoded.expiresAt }
      | none =>
        .ok { name := decoded.name, email := decoded.email, plan := decoded.plan,
              purchasedAt := decoded.purchasedAt, expiresAt := decoded.expiresAt }

/-! ## JS helpers: string truthiness and `||` defaults -/

/-- JS truthiness of a possibly-absent string value: `undefined`, `null`
and `""` are falsy. -/
def truthy : Option String → Bool
  | none => false
  | some s => s != ""

/-- JS `a || d` on a possibly-absent string `a` with string default `d`. -/
def jsOrStr (a : Option String) (d : String) : String :=
  match a with
  | some s => if s = "" then d else s
  | none => d

/-- JS `a || b` on two possibly-absent string values. -/
def jsOrOpt (a b : Option String) : Option String :=
  match a with
  | some s => if s = "" then b else a
  | none => b

/-! ## The in-memory `LicenseStore` (src/unnamed/part_001)

JS `Map` with string keys, modelled as an association list: `get` reads
the first binding, `set` updates the first binding in place or appends. -/

/-- `Map.get(k)`: first binding for `k`, if any. -/
def mget {α : Type} (m : List (String × α)) (k : String) : Option α :=
  match m with
  | [] => none
  | (k', v) :: rest => if k' = k then some v else mget rest k

/-- `Map.set(k, v)`: overwrite the binding in place, else append. -/
def mset {α : Type} (m : List (String × α)) (k : String) (v : α) : List (String × α) :=
  match m with
  | [] => [(k, v)]
  | (k', v') :: rest => if k' = k then (k, v) :: rest else (k', v') :: mset rest k v

/-- The `metadata` object of a stored record. -/
structure RecMeta where
  paymentIntentId : Option String := none
  subscriptionId : Option String := none
  isDevelopment : Bool := false
deriving DecidableEq, Repr

/-- A stored record `{ fullToken, license, metadata }`.  Note: the object
has no `key` property. -/
structure Record where
  fullToken : Jwt
  license : LicensePayload
  metadata : RecMeta
deriving DecidableEq, Repr

/-- The `LicenseStore` state: the primary `licenses` map plus the two
secondary indexes. -/
structure Store where
  licenses : List (String × Record)
  paymentIntentIndex : List (String × String)
  subscriptionIndex : List (String × String)
deriving DecidableEq, Repr

/-- `storeLicense` (part_001:50-62): set the primary map, then update the
secondary indexes when the corresponding metadata id is truthy
(`if (metadata.paymentIntentId)` / `if (metadata.subscriptionId)`). -/
def storeLicense (key : String) (fullToken : Jwt) (license : LicensePayload)
    (metadata : RecMeta) (s : Store) : Store :=
  { licenses := mset s.licenses key ⟨fullToken, license, metadata⟩
    paymentIntentIndex :=
      match metadata.paymentIntentId with
      | some pid => if pid = "" then s.paymentIntentIndex
                    else mset s.paymentIntentIndex pid key
      | none => s.paymentIntentIndex
    subscriptionIndex :=
      match metadata.subscriptionId with
      | some sid => if sid = "" then s.subscriptionIndex
                    else mset s.subscriptionIndex sid key
      | none => s.subscriptionIndex }

/-- `getLicenseByKey` (part_001:64-66): `this.licenses.get(key) || null`. -/
def getLicenseByKey (s : Store) (key : String) : Option Record :=
  mget s.licenses key

/-- `getLicenseByPaymentIntent` (part_001:68-71):
`const key = this.paymentIntentIndex.get(id); return key ? this.licenses.get(key) : null`
(an empty-string key would be falsy). -/
def getLicenseByPaymentIntent (s : Store) (paymentIntentId : String) : Option Record :=
  match mget s.paymentIntentIndex paymentIntentId with
  | some key => if key = "" then none else mget s.licenses key
  | none => none

/-- `getLicenseBySubscription` (part_001:73-76): same shape through the
subscription index. -/
def getLicenseBySubscription (s : Store) (subscriptionId : String) : Option Record :=
  match mget s.subscriptionIndex subscriptionId with
  | some key => if key = "" then none else mget s.licenses key
  | none => none

/-- `updateLicense` (part_001:78-85): mutates `fullToken` and `license` of
an existing record in place (metadata kept); silent no-op when the key is
absent.  The key argument is `Option String` because both call sites in
`src/server.js` pass `existing.key`, a property the stored record object
does not have, i.e. `undefined`; `Map.get(undefined)` misses since only
string keys are ever set. -/
def updateLicense (key : Option String) (fullToken : Jwt) (license : LicensePayload)
    (s : Store) : Store :=
  match key with
  | none => s
  | some k =>
    match mget s.licenses k with
    | none => s
    | some existing =>
      { s with licenses := mset s.licenses k ⟨fullToken, license, existing.metadata⟩ }

/-- The lifetime development license payload seeded by
`initializeDevelopmentLicenses` (part_001:16-48); `purchasedAt` is the
constant `2024-01-01T00:00:00.000Z`. -/
def devLifetimeLicense : LicensePayload :=
  { name := some "Development User"
    email := some "dev@example.com"
    plan := some "pro-lifetime"
    purchasedAt := some 1704067200
    expiresAt := none }

/-- The annual development license payload; its `expiresAt` is
`Date.now() + 365 days` at construction time `t0`. -/
def devAnnualLicense (t0 : Int) : LicensePayload :=
  { name := some "Development User"
    email := some "dev@example.com"
    plan := some "pro-annual"
    purchasedAt := some 1704067200
    expiresAt := some (t0 + 365 * 86400) }

/-- The store as built by the constructor at time `t0`:
`initializeDevelopmentLicenses` signs each dev license and inserts it with
`this.licenses.set` directly (no secondary-index entries), with metadata
`{ isDevelopment: true }`. -/
def initStore (t0 : Int) : Store :=
  { licenses :=
      [ ("PFW-DEV0-LIFE-TIME-TEST",
          ⟨signLicenseToken devLifetimeLicense t0, devLifetimeLicense,
            { isDevelopment := true }⟩)
      , ("PFW-DEV0-ANNU-AL00-TEST",
          ⟨signLicenseToken (devAnnualLicense t0) t0, devAnnualLicense t0,
            { isDevelopment := true }⟩) ]
    paymentIntentIndex := []
    subscriptionIndex := [] }

/-! ## Key generation (src/server.js:385-396) -/

/-- The generator's alphabet `"ABCDEFGHIJKLMNOPQRSTUVWXYZ0123456789"`. -/
def alphabet : List Char := "ABCDEFGHIJKLMNOPQRSTUVWXYZ0123456789".toList

theorem alphabet_length : alphabet.length = 36 := rfl

/-- `chars.charAt(i)` for the in-range index
`i = Math.floor(Math.random() * chars.length)`. -/
def charAt (i : Fin 36) : Char :=
  alphabet.get (Fin.cast alphabet_length.symm i)

/-- `segments.join("-")`. -/
def joinDash : List String → String
  | [] => ""
  | [s] => s
  | s :: rest => s ++ "-" ++ joinDash rest

/-- `generateLicenseKey` (src/server.js:385-396).  The random stream is an
explicit argument: `rand n` is the `n`-th draw
`Math.floor(Math.random() * 36)` (always in `[0, 36)`); the loops draw
sequentially, four characters per segment, five segments, then
`` `PFW-${segments.join("-")}` ``. -/
def generateLicenseKey (rand : Nat → Fin 36) : String :=
  let seg : Nat → String := fun i =>
    String.mk [charAt (rand (4 * i)), charAt (rand (4 * i + 1)),
               charAt (rand (4 * i + 2)), charAt (rand (4 * i + 3))]
  "PFW-" ++ joinDash ((List.range 5).map seg)

/-! ## Key-pattern checkers

These two definitions are modelled from the spec's words (the pattern
claims), to be compared against `generateLicenseKey`: a splitter matching
a split on `'-'`, a group checker for `[A-Z0-9]{4}`, and the two candidate
shapes `PFW-` plus four groups (the claimed regex) versus five groups. -/

/-- Split a character list on `'-'` (like a split of the string on "-"). -/
def splitDash : List Char → List (List Char)
  | [] => [[]]
  | c :: rest =>
    let r := splitDash rest
    if c = '-' then [] :: r
    else
      match r with
      | g :: gs => (c :: g) :: gs
      | [] => [[c]]

/-- One `[A-Z0-9]{4}` group. -/
def isGroup (g : List Char) : Bool :=
  g.length == 4 && g.all (fun c => alphabet.contains c)

/-- The claimed pattern `PFW-[A-Z0-9]{4}-[A-Z0-9]{4}-[A-Z0-9]{4}-[A-Z0-9]{4}`
(four groups after the `PFW` prefix). -/
def matchesClaimedKeyPattern (s : String) : Bool :=
  match splitDash s.toList with
  | [p, a, b, c, d] =>
    p == "PFW".toList && isGroup a && isGroup b && isGroup c && isGroup d
  | _ => false

/-- The shape the generator actually produces: `PFW-` followed by five
dash-separated `[A-Z0-9]{4}` groups. -/
def matchesFiveGroupKeyPattern (s : String) : Bool :=
  match splitDash s.toList with
  | [p, a, b, c, d, e] =>
    p == "PFW".toList && isGroup a && isGroup b && isGroup c && isGroup d && isGroup e
  | _ => false

/-! ## Stripe adapter (src/unnamed/part_000:113-150)

The Stripe API itself is external: the three `retrieve` calls are oracle
functions in `StripeEnv`, returning `Except` to model a thrown error.
`verifyStripePayment` is translated on top of them. -/

/-- A retrieved payment intent, as used by `verifyStripePayment`. -/
structure StripePaymentIntentObj where
  status : String
  customer : Option String
  metaName : Option String
  metaEmail : Option String
deriving DecidableEq, Repr

/-- A retrieved subscription, as used by `verifyStripePayment`. -/
structure StripeSubscriptionObj where
  status : String
  customer : Option String
  metaCustomerName : Option String
  metaCustomerEmail : Option String
deriving DecidableEq, Repr

/-- A retrieved customer. -/
structure StripeCustomerObj where
  name : Option String
  email : Option String
deriving DecidableEq, Repr

/-- The `{ name, email }` object built from customer data. -/
structure CustomerInfo where
  name : Option String := none
  email : Option String := none
deriving DecidableEq, Repr

/-- Result `{ success, customerInfo }` of `verifyStripePayment`. -/
structure Verification where
  success : Bool
  customerInfo : Option CustomerInfo
deriving DecidableEq, Repr

/-- Oracles for the external Stripe API calls; `.error` models a throw. -/
structure StripeEnv where
  retrievePaymentIntent : String → Except String StripePaymentIntentObj
  retrieveSubscription : String → Except String StripeSubscriptionObj
  retrieveCustomer : String → Except String StripeCustomerObj

/-- `verifyStripePayment` (part_000:113-150): for `payment_intent`,
success iff `status === 'succeeded'`; for `subscription`, success iff
`status` ∈ {`active`, `trialing`}; on success with a truthy customer id
the customer is retrieved and `customerInfo` filled with
`customer.name || metadata name` / `customer.email || metadata email`;
any thrown error is caught and yields `{ success: false }` with no
`customerInfo`. -/
def verifyStripePayment (env : StripeEnv) (ty : String) (id : String) : Verification :=
  if ty = "payment_intent" then
    match env.retrievePaymentIntent id with
    | .error _ => { success := false, customerInfo := none }
    | .ok paymentIntent =>
      let paymentSucceeded := paymentIntent.status == "succeeded"
      if paymentSucceeded && truthy paymentIntent.customer then
        match env.retrieveCustomer ((paymentIntent.customer).getD "") with
        | .error _ => { success := false, customerInfo := none }
        | .ok customer =>
          { success := paymentSucceeded
            customerInfo := some
              { name := jsOrOpt customer.name paymentIntent.metaName
                email := jsOrOpt customer.email paymentIntent.metaEmail } }
      else { success := paymentSucceeded, customerInfo := some {} }
  else if ty = "subscription" then
    match env.retrieveSubscription id with
    | .error _ => { success := false, customerInfo := none }
    | .ok subscription =>
      let paymentSucceeded := subscription.status == "active" || subscription.status == "trialing"
      if paymentSucceeded && truthy subscription.customer then
        match env.retrieveCustomer ((subscription.customer).getD "") with
        | .error _ => { success := false, customerInfo := none }
        | .ok customer =>
          { success := paymentSucceeded
            customerInfo := some
              { name := jsOrOpt customer.name subscription.metaCustomerName
                email := jsOrOpt customer.email subscription.metaCustomerEmail } }
      else { success := paymentSucceeded, customerInfo := some {} }
  else { success := false, customerInfo := some {} }

/-! ## Webhook handlers (src/server.js:398-463) -/

/-- The slice of a `payment_intent.succeeded` event object the handler
reads: `id` and the optional `metadata` with `name`/`email`. -/
structure PaymentIntentEvent where
  id : String
  metaName : Option String := none
  metaEmail : Option String := none
deriving DecidableEq, Repr

/-- The slice of a subscription event object the handlers read. -/
structure SubscriptionEvent where
  id : String
  status : String
  currentPeriodEnd : Int
deriving DecidableEq, Repr

/-- `handlePaymentIntentSucceeded` (src/server.js:398-416): no-op when a
record already exists for the payment-intent id; else builds a
`pro-lifetime` payload (`purchasedAt = now`, `expiresAt = null`), signs
it, and stores it under a freshly generated key with
`{ paymentIntentId: paymentIntent.id }`.  `freshKey` is the
`generateLicenseKey()` result of this call. -/
def handlePaymentIntentSucceeded (paymentIntent : PaymentIntentEvent)
    (now : Int) (freshKey : String) (s : Store) : Store :=
  match getLicenseByPaymentIntent s paymentIntent.id with
  | some _ => s
  | none =>
    let license : LicensePayload :=
      { name := some (jsOrStr paymentIntent.metaName "Licensed User")
        email := some (jsOrStr paymentIntent.metaEmail "")
        plan := some "pro-lifetime"
        purchasedAt := some now
        expiresAt := none }
    let fullToken := signLicenseToken license now
    storeLicense freshKey fullToken license { paymentIntentId := some paymentIntent.id } s

/-- `handleSubscriptionChanged` (src/server.js:439-451): no-op when no
record exists for the subscription id; when one exists and the status is
`active`, rebuilds the payload with
`expiresAt = new Date(current_period_end * 1000)`, re-signs, and calls
`updateLicense(existing.key, ...)` — but the record returned by
`getLicenseBySubscription` is `{ fullToken, license, metadata }`, which
has no `key` property, so the first argument is `undefined`. -/
def handleSubscriptionChanged (subscription : SubscriptionEvent)
    (now : Int) (s : Store) : Store :=
  match getLicenseBySubscription s subscription.id with
  | none => s
  | some existing =>
    if subscription.status = "active" then
      let updated : LicensePayload :=
        { existing.license with expiresAt := some subscription.currentPeriodEnd }
      let newToken := signLicenseToken updated now
      -- `existing.key` is undefined: the stored record has no `key` property
      updateLicense none newToken updated s
    else s

/-- `handleSubscriptionDeleted` (src/server.js:453-463): no-op when no
record exists; else rebuilds the payload with
`expiresAt = new Date().toISOString()` (= `now`), re-signs, and calls
`updateLicense(existing.key, ...)` with the same undefined `existing.key`. -/
def handleSubscriptionDeleted (subscription : SubscriptionEvent)
    (now : Int) (s : Store) : Store :=
  match getLicenseBySubscription s subscription.id with
  | none => s
  | some existing =>
    let updated : LicensePayload :=
      { existing.license with expiresAt := some now }
    let newToken := signLicenseToken updated now
    -- `existing.key` is undefined: the stored record has no `key` property
    updateLicense none newToken updated s

/-! ## License endpoints (src/server.js:235-285) -/

/-- The `licenseKey` request field of `/api/license/verify`: either a
token string correctly signed with the process secret, or any other
string (for instance a human-readable `PFW-...` key), on which
`jwt.verify` fails with a malformed-token error. -/
inductive KeyOrToken where
  | jwtTok (tok : Jwt)
  | keyStr (k : String)
deriving DecidableEq, Repr

/-- `if (!licenseKey)`: a missing or empty string field is falsy.  A
signed token string is never empty. -/
def KeyOrToken.falsy : KeyOrToken → Bool
  | .jwtTok _ => false
  | .keyStr k => k == ""

/-- `verifyLicenseToken(licenseKey)` on the raw request field: a string
that is not a token signed with the secret fails `jwt.verify`. -/
def verifyLicenseInput (input : KeyOrToken) (now : Int) : Except TokErr LicensePayload :=
  match input with
  | .jwtTok tok => verifyLicenseToken tok now
  | .keyStr _ => .error .badToken

/-- `store.getLicenseByKey(licenseKey)` on the raw request field.  Stored
keys are generated `PFW-...` strings or the two dev keys, never a JWT
serialization (base64url segments joined by dots), so a lookup with a
token input misses. -/
def getLicenseByKeyInput (s : Store) (input : KeyOrToken) : Option Record :=
  match input with
  | .jwtTok _ => none
  | .keyStr k => getLicenseByKey s k

/-- Response of `POST /api/license/verify`. -/
inductive LicVerifyResp where
  | ok (fullToken : Jwt) (license : LicensePayload)
  | err (msg : String)
deriving DecidableEq, Repr

/-- `POST /api/license/verify` (src/server.js:235-262): 400 if the field
is falsy; try `verifyLicenseToken` on the raw input, on failure fall back
to `getLicenseByKey` and verify the stored token (`License not found`
when absent); on success respond with `signLicenseToken(license)` (the
re-signed fresh token) and the decoded payload; any failure is the
generic 400.  The handler never writes to the store. -/
def licenseVerify (s : Store) (input : KeyOrToken) (now : Int) : Store × LicVerifyResp :=
  if input.falsy then (s, .err "License key required")
  else
    let attempt : Except TokErr LicensePayload :=
      match verifyLicenseInput input now with
      | .ok license => .ok license
      | .error _ =>
        match getLicenseByKeyInput s input with
        | none => .error .badToken
        | some stored => verifyLicenseToken stored.fullToken now
    match attempt with
    | .ok license => (s, .ok (signLicenseToken license now) license)
    | .error _ => (s, .err "Invalid license key")

/-- Response of `POST /api/license/redeem`. -/
inductive RedeemResp where
  | ok (fullToken : Jwt)
  | err (msg : String)
deriving DecidableEq, Repr

/-- `POST /api/license/redeem` (src/server.js:265-285): 400 if the field
is falsy; look the key up in the store (400 when absent); validate the
stored token with `verifyLicenseToken` (400 when it throws); respond with
the stored token unchanged.  The handler never writes to the store. -/
def licenseRedeem (s : Store) (licenseKey : String) (now : Int) : Store × RedeemResp :=
  if licenseKey = "" then (s, .err "License key required")
  else
    match getLicenseByKey s licenseKey with
    | none => (s, .err "Invalid license key")
    | some stored =>
      match verifyLicenseToken stored.fullToken now with
      | .ok _ => (s, .ok stored.fullToken)
      | .error _ => (s, .err "Invalid license key")

/-! ## `POST /api/payments/license` (src/server.js:325-380) -/

/-- Request body of `/api/payments/license`. -/
structure PayLicenseReq where
  plan : Option String
  paymentIntentId : Option String := none
  subscriptionId : Option String := none
deriving DecidableEq, Repr

/-- Response of `/api/payments/license`. -/
inductive PayLicenseResp where
  | ok (fullToken : Jwt) (licenseKey : String) (licenseMeta : LicensePayload)
  | err (msg : String)
deriving DecidableEq, Repr

/-- `POST /api/payments/license` (src/server.js:325-380): 400 on an
invalid plan; `paymentVerified` starts false and is set only by
`verifyStripePayment` on the id matching the plan (skipped entirely when
that id is falsy); 400 `Payment not verified` unless it ends up true;
otherwise synthesize the payload (`pro-annual` with
`expiresAt = now + 365 days`, or `pro-lifetime` with `expiresAt = null`),
sign it, generate a key (`freshKey` is this call's
`generateLicenseKey()` result) and store the record with
`paymentIntentId || null` / `subscriptionId || null` metadata. -/
def paymentsLicense (env : StripeEnv) (req : PayLicenseReq)
    (now : Int) (freshKey : String) (s : Store) : Store × PayLicenseResp :=
  if ¬ (req.plan = some "annual" ∨ req.plan = some "lifetime") then
    (s, .err "Invalid plan")
  else
    let verified : Bool × CustomerInfo :=
      if req.plan = some "lifetime" ∧ truthy req.paymentIntentId then
        let verification := verifyStripePayment env "payment_intent" (req.paymentIntentId.getD "")
        (verification.success, verification.customerInfo.getD {})
      else if req.plan = some "annual" ∧ truthy req.subscriptionId then
        let verification := verifyStripePayment env "subscription" (req.subscriptionId.getD "")
        (verification.success, verification.customerInfo.getD {})
      else (false, {})
    if verified.1 = false then (s, .err "Payment not verified")
    else
      let license : LicensePayload :=
        { name := some (jsOrStr verified.2.name "Licensed User")
          email := some (jsOrStr verified.2.email "")
          plan := some (if req.plan = some "annual" then "pro-annual" else "pro-lifetime")
          purchasedAt := some now
          expiresAt := if req.plan = some "annual" then some (now + 365 * 86400) else none }
      let fullToken := signLicenseToken license now
      let s' := storeLicense freshKey fullToken license
        { paymentIntentId := if truthy req.paymentIntentId then req.paymentIntentId else none
          subscriptionId := if truthy req.subscriptionId then req.subscriptionId else none } s
      (s', .ok fullToken freshKey license)

/-! ## Map lemmas -/

theorem mget_mset_self {α : Type} (m : List (String × α)) (k : String) (v : α) :
    mget (mset m k v) k = some v := by
  induction m with
  | nil => simp [mset, mget]
  | cons p rest ih =>
    obtain ⟨k', v'⟩ := p
    by_cases h : k' = k
    · simp [mset, h, mget]
    · simp [mset, h, mget, ih]

theorem mget_mset_ne {α : Type} (m : List (String × α)) (k k' : String) (v : α)
    (h : k' ≠ k) : mget (mset m k v) k' = mget m k' := by
  induction m with
  | nil => simp [mset, mget, Ne.symm h]
  | cons p rest ih =>
    obtain ⟨ka, va⟩ := p
    by_cases hk : ka = k
    · subst hk
      simp [mset, mget, Ne.symm h]
    · simp [mset, hk, mget, ih]

/-! ## C4: trial token round-trip and fixed seven-day expiry -/

/-- **C4.** For every valid trial pair (`durationDays > 0`),
`verifyTrial ∘ signTrial` is the identity on the pair at any check time
strictly inside the seven-day window, and fails with the expiry error
once the current time exceeds `startedAt + 7` days, regardless of
`durationDays`.  The token is signed at the moment `startedAt` is taken,
exactly as `/api/trial/start` does (`startedAt = now` at signing), so the
codec expiry `iat + 604800` coincides with `startedAt + 604800`. -/
theorem trial_sign_verify_roundtrip (startedAt durationDays : Int)
    (hd : 0 < durationDays) (t : Int) :
    (t < startedAt + 604800 →
      verifyTrialToken (signTrialToken ⟨some startedAt, some durationDays⟩ startedAt) t
        = .ok ⟨some startedAt, some durationDays⟩)
    ∧ (startedAt + 604800 < t →
      verifyTrialToken (signTrialToken ⟨some startedAt, some durationDays⟩ startedAt) t
        = .error .codecExpired) := by
  constructor
  · intro h
    simp only [verifyTrialToken, signTrialToken, jwtVerify]
    rw [if_neg (by omega : ¬ startedAt + 604800 ≤ t)]
    simp
  · intro h
    simp only [verifyTrialToken, signTrialToken, jwtVerify]
    rw [if_pos (by omega : startedAt + 604800 ≤ t)]

/-- Witness for C4 at `startedAt = 100`, `durationDays = 3`. -/
theorem trial_sign_verify_roundtrip_witness :
    (0 : Int) < 3 ∧
    (verifyTrialToken (signTrialToken ⟨some 100, some 3⟩ 100) 200
        = .ok ⟨some 100, some 3⟩) ∧
    (verifyTrialToken (signTrialToken ⟨some 100, some 3⟩ 100) 700000
        = .error .codecExpired) := by
  refine ⟨by decide, ?_, ?_⟩
  · exact (trial_sign_verify_roundtrip 100 3 (by decide) 200).1 (by decide)
  · exact (trial_sign_verify_roundtrip 100 3 (by decide) 700000).2 (by decide)

/-! ## C5: lifetime license tokens verify at any later time -/

/-- **C5.** For every license payload with `expiresAt = null`, signing at
any time `t0` and verifying at any check time `t` succeeds and returns
the payload unchanged: the token carries no codec-level `exp` and the
explicit payload expiry check is skipped. -/
theorem lifetime_license_verifies_forever (p : LicensePayload)
    (hp : p.expiresAt = none) (t0 t : Int) :
    verifyLicenseToken (signLicenseToken p t0) t = .ok p := by
  obtain ⟨n, e, pl, pa, ex⟩ := p
  simp only [LicensePayload.expiresAt] at hp
  subst hp
  simp [verifyLicenseToken, signLicenseToken, jwtVerify]

/-- Witness for C5 on the development lifetime payload, signed at time 0
and checked far in the future. -/
theorem lifetime_license_verifies_forever_witness :
    devLifetimeLicense.expiresAt = none ∧
    verifyLicenseToken (signLicenseToken devLifetimeLicense 0) 100000000000
      = .ok devLifetimeLicense :=
  ⟨rfl, lifetime_license_verifies_forever devLifetimeLicense rfl 0 100000000000⟩

/-! ## C9: pre-seeded development licenses are redeemable from the start -/

/-- **C9.** The store is pre-seeded at construction (any construction time
`t0`) with the hard-coded development records, so from the initial state —
before any payment — `POST /api/license/redeem` with
`PFW-DEV0-LIFE-TIME-TEST` succeeds at any time `now`, leaves the store
unchanged, and the returned token's payload has plan `pro-lifetime` and
`expiresAt = null`. -/
theorem dev_lifetime_key_redeems_from_initial_store (t0 now : Int) :
    licenseRedeem (initStore t0) "PFW-DEV0-LIFE-TIME-TEST" now
      = (initStore t0, .ok (signLicenseToken devLifetimeLicense t0))
    ∧ (signLicenseToken devLifetimeLicense t0).plan = some "pro-lifetime"
    ∧ (signLicenseToken devLifetimeLicense t0).expiresAt = none := by
  refine ⟨?_, rfl, rfl⟩
  simp [licenseRedeem, initStore, getLicenseByKey, mget, verifyLicenseToken,
    jwtVerify, signLicenseToken, devLifetimeLicense]

/-! ## Shared concrete fixtures for the subscription-handler claims -/

/-- A stored annual license payload: signed at time 0, expiring at
1000000. -/
def licW : LicensePayload :=
  { name := some "Alice"
    email := some "alice@example.com"
    plan := some "pro-annual"
    purchasedAt := some 0
    expiresAt := some 1000000 }

/-- Its stored record, linked to subscription `sub_1`. -/
def recW : Record :=
  { fullToken := signLicenseToken licW 0
    license := licW
    metadata := { subscriptionId := some "sub_1" } }

/-- A store holding exactly that record, with its subscription index. -/
def storeW : Store :=
  { licenses := [("PFW-AAAA-BBBB-CCCC-DDDD-EEEE", recW)]
    paymentIntentIndex := []
    subscriptionIndex := [("sub_1", "PFW-AAAA-BBBB-CCCC-DDDD-EEEE")] }

/-! ## C2: `customer.subscription.updated` (active) renewal -/

/-- **C2, failing-input evaluation.**  `storeW` holds a record for
subscription `sub_1` whose `expiresAt` is 1000000; an `active` event
reporting period end 2000000 is processed, yet the store is left exactly
unchanged (in particular `expiresAt` does not increase): the handler's
`updateLicense(existing.key, ...)` call passes an undefined key, so the
update silently misses. -/
theorem subscriptionChanged_active_known_id_is_noop :
    handleSubscriptionChanged ⟨"sub_1", "active", 2000000⟩ 500 storeW = storeW
    ∧ (getLicenseBySubscription storeW "sub_1").map (fun r => r.license.expiresAt)
        = some (some 1000000) :=
  ⟨rfl, rfl⟩

/-! ## C3: `customer.subscription.deleted` revocation -/

/-- **C3, failing-input evaluation.**  From `storeW`, a
`subscription.deleted` event for the known id `sub_1` processed at time
100 leaves the store exactly unchanged, and the stored token still
verifies successfully at the strictly later time 200 (the claim requires
`expiresAt ≤ 100` and a subsequent `Expired` failure): revocation never
happens because `updateLicense(existing.key, ...)` passes an undefined
key. -/
theorem subscriptionDeleted_known_id_is_noop :
    handleSubscriptionDeleted ⟨"sub_1", "canceled", 0⟩ 100 storeW = storeW
    ∧ verifyLicenseToken recW.fullToken 200 = .ok licW :=
  ⟨rfl, rfl⟩

/-! ## C10: non-active subscription status leaves the store unchanged -/

/-- **C10.** For every store, every subscription event whose id has an
existing record, and every reported status other than `active`, the
handler (shared by `customer.subscription.created` and
`customer.subscription.updated`) leaves the store entirely unchanged. -/
theorem subscriptionChanged_inactive_is_noop (s : Store) (sub : SubscriptionEvent)
    (now : Int) (rec : Record)
    (hrec : getLicenseBySubscription s sub.id = some rec)
    (hst : sub.status ≠ "active") :
    handleSubscriptionChanged sub now s = s := by
  unfold handleSubscriptionChanged
  rw [hrec]
  simp [hst]

/-- Witness for C10: `storeW` holds a record for `sub_1`; a `past_due`
event leaves the store unchanged. -/
theorem subscriptionChanged_inactive_is_noop_witness :
    getLicenseBySubscription storeW "sub_1" = some recW
    ∧ handleSubscriptionChanged ⟨"sub_1", "past_due", 2000000⟩ 500 storeW = storeW :=
  ⟨rfl, subscriptionChanged_inactive_is_noop storeW ⟨"sub_1", "past_due", 2000000⟩ 500 recW
    rfl (by decide)⟩

/-! ## C1: idempotence of `payment_intent.succeeded` processing -/

/-- After `storeLicense` with truthy `paymentIntentId` metadata, the
payment-intent secondary lookup finds the freshly stored record. -/
theorem getByPaymentIntent_after_storeLicense (s : Store) (key : String)
    (tok : Jwt) (lic : LicensePayload) (pid : String) (sid : Option String)
    (dev : Bool) (hpid : pid ≠ "") (hkey : key ≠ "") :
    getLicenseByPaymentIntent
      (storeLicense key tok lic
        { paymentIntentId := some pid, subscriptionId := sid, isDevelopment := dev } s) pid
      = some ⟨tok, lic, { paymentIntentId := some pid, subscriptionId := sid, isDevelopment := dev }⟩ := by
  unfold storeLicense getLicenseByPaymentIntent
  simp [hpid, hkey, mget_mset_self]

/-- When a record for the payment-intent id already exists, the handler
is a no-op. -/
theorem handlePaymentIntentSucceeded_noop (pi : PaymentIntentEvent) (now : Int)
    (k : String) (s : Store) (r : Record)
    (h : getLicenseByPaymentIntent s pi.id = some r) :
    handlePaymentIntentSucceeded pi now k s = s := by
  unfold handlePaymentIntentSucceeded
  rw [h]

/-- **C1.** Processing the same `payment_intent.succeeded` event twice is
idempotent from any store state: after the first processing the record is
found through the payment-intent secondary index, and the second
processing leaves the store exactly unchanged.  `pi.id` is a Stripe
payment-intent id (nonempty), and `k1` is the first call's generated key
(`PFW-...`, nonempty); the second call's time and generated key are
arbitrary. -/
theorem paymentIntentSucceeded_idempotent (s : Store) (pi : PaymentIntentEvent)
    (now1 now2 : Int) (k1 k2 : String) (hid : pi.id ≠ "") (hk1 : k1 ≠ "") :
    (getLicenseByPaymentIntent (handlePaymentIntentSucceeded pi now1 k1 s) pi.id).isSome = true
    ∧ handlePaymentIntentSucceeded pi now2 k2 (handlePaymentIntentSucceeded pi now1 k1 s)
        = handlePaymentIntentSucceeded pi now1 k1 s := by
  rcases hE : getLicenseByPaymentIntent s pi.id with _ | rec
  · have hs1 :
        getLicenseByPaymentIntent (handlePaymentIntentSucceeded pi now1 k1 s) pi.id
          = some ⟨signLicenseToken
              { name := some (jsOrStr pi.metaName "Licensed User")
                email := some (jsOrStr pi.metaEmail "")
                plan := some "pro-lifetime"
                purchasedAt := some now1
                expiresAt := none } now1,
              { name := some (jsOrStr pi.metaName "Licensed User")
                email := some (jsOrStr pi.metaEmail "")
                plan := some "pro-lifetime"
                purchasedAt := some now1
                expiresAt := none },
              { paymentIntentId := some pi.id }⟩ := by
      unfold handlePaymentIntentSucceeded
      rw [hE]
      exact getByPaymentIntent_after_storeLicense s k1 _ _ pi.id none false hid hk1
    constructor
    · rw [hs1]; rfl
    · exact handlePaymentIntentSucceeded_noop pi now2 k2 _ _ hs1
  · have hs1 : handlePaymentIntentSucceeded pi now1 k1 s = s :=
      handlePaymentIntentSucceeded_noop pi now1 k1 s rec hE
    constructor
    · rw [hs1, hE]; rfl
    · rw [hs1]
      exact handlePaymentIntentSucceeded_noop pi now2 k2 s rec hE

/-- Witness for C1: from the freshly constructed store, deliver the same
`payment_intent.succeeded` event (id `pi_1`) twice with distinct generated
keys and times. -/
theorem paymentIntentSucceeded_idempotent_witness :
    ("pi_1" : String) ≠ "" ∧ ("PFW-AAAA-BBBB-CCCC-DDDD-EEEE" : String) ≠ ""
    ∧ (getLicenseByPaymentIntent
        (handlePaymentIntentSucceeded ⟨"pi_1", none, none⟩ 10 "PFW-AAAA-BBBB-CCCC-DDDD-EEEE" (initStore 0))
        "pi_1").isSome = true
    ∧ handlePaymentIntentSucceeded ⟨"pi_1", none, none⟩ 20 "PFW-FFFF-GGGG-HHHH-IIII-JJJJ"
        (handlePaymentIntentSucceeded ⟨"pi_1", none, none⟩ 10 "PFW-AAAA-BBBB-CCCC-DDDD-EEEE" (initStore 0))
      = handlePaymentIntentSucceeded ⟨"pi_1", none, none⟩ 10 "PFW-AAAA-BBBB-CCCC-DDDD-EEEE" (initStore 0) := by
  have h := paymentIntentSucceeded_idempotent (initStore 0) ⟨"pi_1", none, none⟩ 10 20
    "PFW-AAAA-BBBB-CCCC-DDDD-EEEE" "PFW-FFFF-GGGG-HHHH-IIII-JJJJ" (by decide) (by decide)
  exact ⟨by decide, by decide, h.1, h.2⟩

/-! ## C6: unverified payments are declined with no state change -/

/-- If the retrieved payment intent's status is not `succeeded` (or the
retrieval throws), `verifyStripePayment` reports failure. -/
theorem verifyStripePayment_paymentIntent_fail (env : StripeEnv) (pid : String)
    (h : ∀ x, env.retrievePaymentIntent pid = .ok x → x.status ≠ "succeeded") :
    (verifyStripePayment env "payment_intent" pid).success = false := by
  unfold verifyStripePayment
  rcases hE : env.retrievePaymentIntent pid with e | x
  · simp [hE]
  · have hx := h x hE
    simp [hE, hx]

/-- If the retrieved subscription's status is neither `active` nor
`trialing` (or the retrieval throws), `verifyStripePayment` reports
failure. -/
theorem verifyStripePayment_subscription_fail (env : StripeEnv) (sid : String)
    (h : ∀ x, env.retrieveSubscription sid = .ok x →
      x.status ≠ "active" ∧ x.status ≠ "trialing") :
    (verifyStripePayment env "subscription" sid).success = false := by
  unfold verifyStripePayment
  rcases hE : env.retrieveSubscription sid with e | x
  · simp [hE]
  · have hx := h x hE
    simp [hE, hx.1, hx.2]

/-- **C6.** On `POST /api/payments/license` with a valid plan, whenever
the id matching the plan — the only id the endpoint consults — fails
verification or has an unconfirmed status, or no id matching the plan is
supplied at all, the request is answered with the 400
`Payment not verified` failure and the store is returned completely
unchanged (so no token is signed, no key is generated, and no record or
index entry is added).  Each hypothesis is conditioned on its plan, so
nothing is assumed about an id the endpoint never looks at (for instance
a `paymentIntentId` supplied with plan `annual`). -/
theorem paymentsLicense_unverified_is_declined (env : StripeEnv)
    (req : PayLicenseReq) (now : Int) (freshKey : String) (s : Store)
    (hplan : req.plan = some "annual" ∨ req.plan = some "lifetime")
    (hpi : req.plan = some "lifetime" →
      ∀ pid, req.paymentIntentId = some pid → pid ≠ "" →
      ∀ x, env.retrievePaymentIntent pid = .ok x → x.status ≠ "succeeded")
    (hsub : req.plan = some "annual" →
      ∀ sid, req.subscriptionId = some sid → sid ≠ "" →
      ∀ x, env.retrieveSubscription sid = .ok x →
        x.status ≠ "active" ∧ x.status ≠ "trialing") :
    paymentsLicense env req now freshKey s = (s, .err "Payment not verified") := by
  unfold paymentsLicense
  rw [if_neg (not_not_intro hplan)]
  by_cases h1 : req.plan = some "lifetime" ∧ truthy req.paymentIntentId
  · rcases hp : req.paymentIntentId with _ | pid
    · rw [hp] at h1
      exact absurd h1.2 (by simp [truthy])
    · have hpid : pid ≠ "" := by
        have := h1.2
        rw [hp] at this
        simpa [truthy] using this
      have hfail : (verifyStripePayment env "payment_intent" pid).success = false :=
        verifyStripePayment_paymentIntent_fail env pid (hpi h1.1 pid hp hpid)
      simp only [hp, h1.1]
      simp [truthy, hpid, hfail]
  · by_cases h2 : req.plan = some "annual" ∧ truthy req.subscriptionId
    · rcases hsb : req.subscriptionId with _ | sid
      · rw [hsb] at h2
        exact absurd h2.2 (by simp [truthy])
      · have hsid : sid ≠ "" := by
          have := h2.2
          rw [hsb] at this
          simpa [truthy] using this
        have hfail : (verifyStripePayment env "subscription" sid).success = false :=
          verifyStripePayment_subscription_fail env sid (hsub h2.1 sid hsb hsid)
        simp only [hsb, h2.1]
        simp [truthy, hsid, hfail]
    · simp [h1, h2]

/-- Witness for C6: plan `annual` with no subscription id supplied — no
id matching the plan — while a `paymentIntentId` whose retrieval even
reports `succeeded` is supplied; the endpoint never consults it, and the
initial store is returned unchanged with the decline. -/
theorem paymentsLicense_unverified_is_declined_witness :
    paymentsLicense
      { retrievePaymentIntent := fun _ =>
          .ok { status := "succeeded", customer := none,
                metaName := none, metaEmail := none }
        retrieveSubscription := fun _ => .error "No such subscription"
        retrieveCustomer := fun _ => .error "No such customer" }
      { plan := some "annual", paymentIntentId := some "pi_1", subscriptionId := none }
      50 "PFW-AAAA-BBBB-CCCC-DDDD-EEEE" (initStore 0)
      = (initStore 0, .err "Payment not verified") := by
  apply paymentsLicense_unverified_is_declined
  · exact Or.inl rfl
  · intro hlife pid hp hne x hx
    exact absurd hlife (by decide)
  · intro hann sid hs hne x hx
    exact Option.noConfusion hs

/-! ## C7: `/api/license/verify` — token-or-key input, re-signing, frame -/

/-- A falsy input (empty key) never verifies directly as a token. -/
theorem verifyLicenseInput_of_falsy (input : KeyOrToken) (now : Int)
    (h : input.falsy = true) :
    verifyLicenseInput input now = .error .badToken := by
  cases input with
  | jwtTok tok => exact absurd h (by simp [KeyOrToken.falsy])
  | keyStr k => rfl

/-- **C7.** `POST /api/license/verify` accepts either a raw license token
or a human-readable key: (frame) in every case the store is returned
exactly unchanged; (direct) if the input verifies directly as a token,
the response is a success carrying a freshly re-signed token over the
same decoded payload; (fallback) if direct token verification of a
non-empty input fails, the key lookup in the store is consulted, and when
a record is found whose stored token verifies, the response is a success
carrying a freshly re-signed token over that decoded payload. -/
theorem licenseVerify_frame_and_fallback (s : Store) (input : KeyOrToken) (now : Int) :
    (licenseVerify s input now).1 = s
    ∧ (∀ license, verifyLicenseInput input now = .ok license →
        (licenseVerify s input now).2 = .ok (signLicenseToken license now) license)
    ∧ (input.falsy = false →
        ∀ e, verifyLicenseInput input now = .error e →
        ∀ stored, getLicenseByKeyInput s input = some stored →
        ∀ license, verifyLicenseToken stored.fullToken now = .ok license →
        (licenseVerify s input now).2 = .ok (signLicenseToken license now) license) := by
  refine ⟨?_, ?_, ?_⟩
  · unfold licenseVerify
    split
    · rfl
    · split
      · rfl
      · split
        all_goals first
          | rfl
          | (rename_i stored _
             cases hC : verifyLicenseToken stored.fullToken now <;> simp [hC])
  · intro license hok
    have hf : input.falsy = false := by
      cases hff : input.falsy
      · rfl
      · rw [verifyLicenseInput_of_falsy input now hff] at hok
        cases hok
    unfold licenseVerify
    rw [hf]
    simp [hok]
  · intro hf e herr stored hstored license hok
    unfold licenseVerify
    rw [hf]
    simp [herr, hstored, hok]

/-- Witness for C7: the fallback path on the initial store with the
development lifetime key as input — direct token verification of the raw
key fails, the store lookup succeeds, and the response re-signs the
decoded dev payload; the store is unchanged. -/
theorem licenseVerify_frame_and_fallback_witness :
    (licenseVerify (initStore 0) (.keyStr "PFW-DEV0-LIFE-TIME-TEST") 5).1 = initStore 0
    ∧ (licenseVerify (initStore 0) (.keyStr "PFW-DEV0-LIFE-TIME-TEST") 5).2
        = .ok (signLicenseToken devLifetimeLicense 5) devLifetimeLicense := by
  have h := licenseVerify_frame_and_fallback (initStore 0)
    (.keyStr "PFW-DEV0-LIFE-TIME-TEST") 5
  refine ⟨h.1, ?_⟩
  refine h.2.2 rfl .badToken rfl
    ⟨signLicenseToken devLifetimeLicense 0, devLifetimeLicense, { isDevelopment := true }⟩
    rfl devLifetimeLicense rfl

/-! ## C8: generated key format -/

theorem string_toList_append (s t : String) :
    (s ++ t).toList = s.toList ++ t.toList := by
  cases s
  cases t
  rfl

/-- No alphabet character is the dash separator. -/
theorem alphabet_no_dash : ∀ c ∈ alphabet, c ≠ '-' := by
  intro c hc
  fin_cases hc <;> decide

/-- Splitting a dash-free group followed by a dash peels off the group. -/
theorem splitDash_group_cons (g : List Char) (rest : List Char)
    (h : ∀ c ∈ g, c ≠ '-') :
    splitDash (g ++ '-' :: rest) = g :: splitDash rest := by
  induction g with
  | nil => simp [splitDash]
  | cons c g' ih =>
    have hc : c ≠ '-' := h c (by simp)
    have ih' := ih (fun x hx => h x (by simp [hx]))
    simp only [List.cons_append, splitDash]
    rw [if_neg hc]
    simp only [List.append_eq]
    rw [ih']

/-- Splitting a dash-free list yields that single group. -/
theorem splitDash_nodash (g : List Char) (h : ∀ c ∈ g, c ≠ '-') :
    splitDash g = [g] := by
  induction g with
  | nil => rfl
  | cons c g' ih =>
    have hc : c ≠ '-' := h c (by simp)
    have ih' := ih (fun x hx => h x (by simp [hx]))
    simp only [splitDash]
    rw [if_neg hc, ih']

theorem charAt_mem_alphabet (i : Fin 36) : charAt i ∈ alphabet :=
  List.get_mem alphabet i.val (by rw [alphabet_length]; exact i.isLt)

/-- A four-character segment drawn from the alphabet is a valid group. -/
theorem isGroup_of_four (a b c d : Fin 36) :
    isGroup [charAt a, charAt b, charAt c, charAt d] = true := by
  simp [isGroup, charAt_mem_alphabet]

theorem group_no_dash (g : List Char) (h : isGroup g = true) :
    ∀ c ∈ g, c ≠ '-' := by
  intro c hc
  have hall := (Bool.and_eq_true _ _ |>.mp h).2
  rw [List.all_eq_true] at hall
  have := hall c hc
  exact alphabet_no_dash c (by
    have : alphabet.elem c = true := by simpa [List.contains] using this
    exact (List.elem_iff).mp this)

/-- Any five valid groups produce a string of the generated shape
`PFW-G-G-G-G-G`. -/
theorem fiveGroup_of_groups (g1 g2 g3 g4 g5 : List Char)
    (h1 : isGroup g1 = true) (h2 : isGroup g2 = true) (h3 : isGroup g3 = true)
    (h4 : isGroup g4 = true) (h5 : isGroup g5 = true) :
    matchesFiveGroupKeyPattern
      ("PFW-" ++ joinDash [String.mk g1, String.mk g2, String.mk g3,
        String.mk g4, String.mk g5]) = true := by
  have htl : ("PFW-" ++ joinDash [String.mk g1, String.mk g2, String.mk g3,
      String.mk g4, String.mk g5]).toList
      = ['P', 'F', 'W'] ++ '-' :: (g1 ++ '-' :: (g2 ++ '-' :: (g3 ++ '-' :: (g4 ++ '-' :: g5)))) := by
    simp [joinDash, string_toList_append]
  unfold matchesFiveGroupKeyPattern
  rw [htl, splitDash_group_cons _ _ (by decide),
    splitDash_group_cons _ _ (group_no_dash g1 h1),
    splitDash_group_cons _ _ (group_no_dash g2 h2),
    splitDash_group_cons _ _ (group_no_dash g3 h3),
    splitDash_group_cons _ _ (group_no_dash g4 h4),
    splitDash_nodash _ (group_no_dash g5 h5)]
  simp [h1, h2, h3, h4, h5]

/-- **C8, amended.** Every key the generator can produce — for every
random draw stream — consists of the `PFW-` prefix followed by **five**
dash-separated groups of exactly four characters from the 36-character
alphabet `A`–`Z`, `0`–`9`. -/
theorem generateLicenseKey_matches_five_groups (rand : Nat → Fin 36) :
    matchesFiveGroupKeyPattern (generateLicenseKey rand) = true := by
  unfold generateLicenseKey
  have hrange : List.range 5 = [0, 1, 2, 3, 4] := rfl
  rw [hrange]
  simp only [List.map]
  exact fiveGroup_of_groups _ _ _ _ _
    (isGroup_of_four _ _ _ _) (isGroup_of_four _ _ _ _) (isGroup_of_four _ _ _ _)
    (isGroup_of_four _ _ _ _) (isGroup_of_four _ _ _ _)

/-- **C8, counterexample to the claim as stated.**  The concrete
generated key for the all-zero draw stream,
`PFW-AAAA-AAAA-AAAA-AAAA-AAAA`, does not match the claimed pattern
`PFW-[A-Z0-9]{4}-[A-Z0-9]{4}-[A-Z0-9]{4}-[A-Z0-9]{4}` (four groups):
the generator emits five groups. -/
theorem generateLicenseKey_fails_claimed_pattern :
    generateLicenseKey (fun _ => (0 : Fin 36)) = "PFW-AAAA-AAAA-AAAA-AAAA-AAAA"
    ∧ matchesClaimedKeyPattern (generateLicenseKey (fun _ => (0 : Fin 36))) = false := by
  constructor
  · rfl
  · decide

end PDFForge
